import Mathlib

/-!
Verification of the SnapMaster window-capture and region-selection core.

This file shallowly embeds the relevant parts of
src/core/app_detector.py and src/core/screenshot_manager.py:
pure Python functions become Lean functions, OS interop
(win32 calls, pyautogui grabs, the PIL encoder, the filesystem)
becomes explicit oracle inputs carried in small environment
structures, Python exceptions become Except values, and object
state becomes explicit state passing.  Logging and the statistics
counters are side effects with no bearing on any stated property
and are omitted.
-/

namespace SnapMaster

/-! ## Data model: AppInfo (src/core/app_detector.py, dataclass AppInfo) -/

/-- Embeds the AppInfo dataclass of src/core/app_detector.py: one
foreground-window snapshot.  window_rect is (x, y, width, height). -/
structure AppInfo where
  name : String
  pid : Int
  window_title : String
  executable_path : String
  is_fullscreen : Bool
  window_rect : Int × Int × Int × Int
  is_game : Bool
  is_browser : Bool
  window_handle : Int
  window_class : String
deriving DecidableEq, Repr

/-! ## Fullscreen classification (AppDetector._is_window_fullscreen) -/

/-- Monitor rectangle as returned by GetMonitorInfo: (left, top, right, bottom). -/
structure MonitorRect where
  left : Int
  top : Int
  right : Int
  bottom : Int
deriving DecidableEq, Repr

/-- The two style bits read by _is_window_fullscreen via GetWindowLong:
WS_POPUP and WS_BORDER. -/
structure WinStyle where
  ws_popup : Bool
  ws_border : Bool
deriving DecidableEq, Repr

/-- Embeds AppDetector._is_window_fullscreen.  The win32 queries
(MonitorFromWindow, GetMonitorInfo, GetWindowLong) are the oracle
`osInfo`; when any of them raises, the except branch of the source
falls back to the simple size heuristic on the window rect alone. -/
def is_window_fullscreen (osInfo : Except Unit (MonitorRect × WinStyle))
    (x y width height : Int) : Bool :=
  match osInfo with
  | .error _ =>
      -- fallback: width > 1800 and height > 1000 and x <= 10 and y <= 10
      decide (1800 < width) && decide (1000 < height) &&
        decide (x ≤ 10) && decide (y ≤ 10)
  | .ok (m, style) =>
      let monitor_width := m.right - m.left
      let monitor_height := m.bottom - m.top
      let tolerance : Int := 10
      let covers_width := decide (monitor_width - tolerance ≤ width)
      let covers_height := decide (monitor_height - tolerance ≤ height)
      let near_left := decide (|x - m.left| ≤ tolerance)
      let near_top := decide (|y - m.top| ≤ tolerance)
      let is_popup := style.ws_popup
      let has_no_border := !style.ws_border
      let size_match := covers_width && covers_height
      let position_match := near_left && near_top
      let style_match := is_popup || has_no_border
      size_match && (position_match || style_match)

/-- Stated from the words of the spec, for comparison with the source
function only (claim C3): geometry criterion (size-match AND
top-left-alignment, both within the 10px tolerance) OR the
borderless/popup style criterion. -/
def fullscreen_claimed (m : MonitorRect) (style : WinStyle)
    (x y width height : Int) : Bool :=
  let monitor_width := m.right - m.left
  let monitor_height := m.bottom - m.top
  let tolerance : Int := 10
  let geometry := decide (monitor_width - tolerance ≤ width) &&
    decide (monitor_height - tolerance ≤ height) &&
    decide (|x - m.left| ≤ tolerance) && decide (|y - m.top| ≤ tolerance)
  let style_crit := style.ws_popup || !style.ws_border
  geometry || style_crit

/-! ## History (AppDetector._update_history) -/

/-- The consecutive-duplicate test of _update_history: Python
`not self.app_history or self.app_history[-1].name != app_info.name`
negated (true when the append is skipped). -/
def history_dup (h : List AppInfo) (a : AppInfo) : Bool :=
  match h.getLast? with
  | none => false
  | some last => decide (last.name = a.name)

/-- Embeds AppDetector._update_history: append unless the last entry
has the same process name; if the length then exceeds 50, keep the
last 25 entries (Python slice history[-25:]). -/
def update_history (h : List AppInfo) (a : AppInfo) : List AppInfo :=
  if history_dup h a then h
  else
    let h2 := h ++ [a]
    if 50 < h2.length then h2.drop (h2.length - 25) else h2

/-- The invariant claimed for the history: bounded by 50 entries and
no two consecutive entries with the same process name. -/
def historyInv (h : List AppInfo) : Prop :=
  h.length ≤ 50 ∧ (h.map AppInfo.name).Chain' (· ≠ ·)

instance (h : List AppInfo) : Decidable (historyInv h) := by
  unfold historyInv
  infer_instance

/-! ## Classification helper (AppDetector._enrich_app_info) -/

/-- Python substring membership over char lists: needle occurs
contiguously in hay (the semantics of the in operator on str). -/
def listContainsSub (needle : List Char) : List Char → Bool
  | [] => needle.isEmpty
  | c :: t => needle.isPrefixOf (c :: t) || listContainsSub needle t

/-- Python substring test (needle in hay). -/
def strIn (needle hay : String) : Bool :=
  listContainsSub needle.toList hay.toList

/-- Python str.lower restricted to the ASCII range (the process and
indicator names the source compares are ASCII). -/
def pyLower (s : String) : String := String.mk (s.data.map Char.toLower)

/-- game_indicators of _enrich_app_info. -/
def game_indicators : List String :=
  ["game", "steam", "unity", "unreal", "gameoverlay",
   "origin", "uplay", "epicgames", "gog", "minecraft",
   "directx", "opengl", "vulkan", ".exe"]

/-- game_title_indicators of _enrich_app_info. -/
def game_title_indicators : List String :=
  ["game", "level", "score", "player", "fps"]

/-- browser_indicators of _enrich_app_info. -/
def browser_indicators : List String :=
  ["chrome", "firefox", "safari", "edge", "opera", "brave",
   "webkit", "browser", "msedge", "chromium"]

/-- Embeds AppDetector._enrich_app_info: derive is_game / is_browser
by case-insensitive substring matches of the static keyword lists
against process name, executable path and (for games) window title. -/
def enrich_app_info (a : AppInfo) : AppInfo :=
  let app_name_lower := pyLower a.name
  let executable_lower := pyLower a.executable_path
  let title_lower := pyLower a.window_title
  let game_by_name := game_indicators.any
    (fun i => strIn i app_name_lower || strIn i executable_lower)
  let is_game := if game_by_name then true
    else game_title_indicators.any (fun i => strIn i title_lower)
  let is_browser := browser_indicators.any
    (fun i => strIn i app_name_lower || strIn i executable_lower)
  { a with is_game := is_game, is_browser := is_browser }

/-! ## Detector state and get_current_app (AppDetector.get_current_app) -/

/-- The mutable fields of AppDetector touched by get_current_app:
the 1-second cache and the bounded history.  Times are rationals
standing in for time.time() values. -/
structure DetectorState where
  cached_app : Option AppInfo
  last_detection_time : ℚ
  app_history : List AppInfo
deriving DecidableEq

/-- self.cache_duration = 1.0 second. -/
def cache_duration : ℚ := 1

/-- Result of one get_current_app call: the returned value, the
detector state afterwards, and whether a platform detection was
actually performed (false on a cache hit). -/
structure DetectResult where
  result : Option AppInfo
  state : DetectorState
  performed_detection : Bool
deriving DecidableEq

/-- Embeds AppDetector.get_current_app.  The platform query
(_get_windows_app_improved / _get_linux_app / _get_macos_app) is the
oracle `platform_query`: .error models the detection raising (caught
by the outer except, which returns None), .ok none models no
foreground window, .ok (some raw) a successful raw detection which
is then enriched, cached and appended to the history. -/
def get_current_app (st : DetectorState) (use_cache : Bool) (current_time : ℚ)
    (platform_query : Except Unit (Option AppInfo)) : DetectResult :=
  if use_cache && st.cached_app.isSome &&
      decide (current_time - st.last_detection_time < cache_duration) then
    ⟨st.cached_app, st, false⟩
  else
    match platform_query with
    | .error _ => ⟨none, st, true⟩
    | .ok none => ⟨none, st, true⟩
    | .ok (some raw) =>
        let app_info := enrich_app_info raw
        ⟨some app_info,
         ⟨some app_info, current_time, update_history st.app_history app_info⟩,
         true⟩

/-! ## Images (PIL Image, pyautogui.screenshot) -/

/-- In-memory raster image: size plus a pixel map (abstract colors). -/
structure Image where
  width : Nat
  height : Nat
  pixel : Nat → Nat → Nat

/-- PIL Image.crop((x, y, x + w, y + h)): a w by h view translated
by (x, y). -/
def cropImage (img : Image) (x y w h : Nat) : Image :=
  ⟨w, h, fun i j => img.pixel (x + i) (y + j)⟩

/-! ## AreaSelector event machine (screenshot_manager.py, class AreaSelector)

The Tk overlay is single-threaded and event driven; we embed it as a
state machine over the mouse and key events the source binds
(_on_click, _on_drag, _on_release, _confirm_selection,
_cancel_selection).  drawn_rect models the canvas item tagged
selection_border, the rectangle last drawn during the drag. -/

/-- The Tk events the selection overlay binds. -/
inductive SelEvent where
  | click (x y : Int)
  | drag (x y : Int)
  | release (x y : Int)
  | keyReturn
  | keySpace
  | keyEscape
deriving DecidableEq, Repr

/-- The AreaSelector fields driving the session, plus drawn_rect for
the canvas selection rectangle and quit for root.quit(). -/
structure SelState where
  start_x : Int
  start_y : Int
  selecting : Bool
  selected_area : Option (Int × Int × Int × Int)
  selection_confirmed : Bool
  drawn_rect : Option (Int × Int × Int × Int)
  quit : Bool
deriving DecidableEq, Repr

/-- Fields as initialised by AreaSelector.__init__ (start coordinates
are None in the source and only read after a click; 0 here). -/
def initSelState : SelState :=
  ⟨0, 0, false, none, false, none, false⟩

/-- AreaSelector._on_click: record the anchor, enter selecting mode,
clear any prior canvas selection (drawn_rect).  selected_area is NOT
reset by _clear_selection. -/
def on_click (st : SelState) (x y : Int) : SelState :=
  { st with start_x := x, start_y := y, selecting := true, drawn_rect := none }

/-- AreaSelector._on_drag: normalize the anchor and current point and
redraw the selection rectangle when both sides exceed 5px (the canvas
was cleared first, so a smaller drag leaves nothing drawn). -/
def on_drag (st : SelState) (x y : Int) : SelState :=
  if !st.selecting then st
  else
    let min_x := min st.start_x x
    let max_x := max st.start_x x
    let min_y := min st.start_y y
    let max_y := max st.start_y y
    let width := max_x - min_x
    let height := max_y - min_y
    if 5 < width && 5 < height then
      { st with drawn_rect := some (min_x, min_y, width, height) }
    else
      { st with drawn_rect := none }

/-- AreaSelector._on_release: leave selecting mode; if the normalized
rectangle is strictly larger than 10px in both axes store it as
selected_area and show the confirmation, otherwise clear the canvas
and fall back to waiting for a new drag. -/
def on_release (st : SelState) (x y : Int) : SelState :=
  if !st.selecting then st
  else
    let min_x := min st.start_x x
    let max_x := max st.start_x x
    let min_y := min st.start_y y
    let max_y := max st.start_y y
    let width := max_x - min_x
    let height := max_y - min_y
    if 10 < width && 10 < height then
      { st with selecting := false,
                selected_area := some (min_x, min_y, width, height) }
    else
      { st with selecting := false, drawn_rect := none }

/-- AreaSelector._confirm_selection (Return and space): only quits
the modal loop when a selection is stored. -/
def confirm_selection (st : SelState) : SelState :=
  if st.selected_area.isSome then
    { st with selection_confirmed := true, quit := true }
  else st

/-- AreaSelector._cancel_selection (Escape): drop the selection and
quit the modal loop. -/
def cancel_selection (st : SelState) : SelState :=
  { st with selected_area := none, selection_confirmed := false, quit := true }

/-- One event dispatch of the Tk main loop; after root.quit() no
further events are processed. -/
def sel_step (st : SelState) (e : SelEvent) : SelState :=
  if st.quit then st
  else
    match e with
    | .click x y => on_click st x y
    | .drag x y => on_drag st x y
    | .release x y => on_release st x y
    | .keyReturn => confirm_selection st
    | .keySpace => confirm_selection st
    | .keyEscape => cancel_selection st

/-- Runs the modal event loop on a list of user events. -/
def run_selection (events : List SelEvent) : SelState :=
  events.foldl sel_step initSelState

/-! ## AreaSelector.select_area and
ScreenshotManager.capture_area_selection (claim C1)

select_area freezes one full-screen grab, runs the modal session and
returns only the selected coordinates; _cleanup_selection_interface
destroys the frozen snapshot before returning, so the caller never
receives it.  capture_area_selection then sleeps 0.5s and re-grabs
the LIVE screen at the returned rectangle with
pyautogui.screenshot(region=...). -/

/-- Inputs of one selection session: the full-screen grab taken at
session start (may raise) and the user events. -/
structure AreaSelectEnv where
  frozen_grab : Except Unit Image
  events : List SelEvent

/-- Embeds AreaSelector.select_area: if the freeze grab fails,
_prepare_images returns False and the call returns None; otherwise
the modal loop runs and the stored selected_area (coordinates only)
is returned once the loop has quit. -/
def select_area (env : AreaSelectEnv) : Option (Int × Int × Int × Int) :=
  match env.frozen_grab with
  | .error _ => none
  | .ok _ =>
      let st := run_selection env.events
      if st.quit then st.selected_area else none

/-- Inputs of capture_area_selection: the selection session and the
live screen content at re-grab time, 0.5s plus the configured delay
after the overlay teardown. -/
structure AreaCaptureEnv where
  sel : AreaSelectEnv
  live_screen : Image

/-- Embeds the capture step of ScreenshotManager.capture_area_selection:
pyautogui.screenshot(region=(x, y, width, height)) on the live
screen, i.e. a crop of the screen content as it is AFTER teardown,
not of the frozen session snapshot. -/
def capture_area_selection_image (env : AreaCaptureEnv) : Option Image :=
  match select_area env.sel with
  | none => none
  | some (x, y, w, h) =>
      some (cropImage env.live_screen x.toNat y.toNat w.toNat h.toNat)

/-! ## Concurrency guard of capture_area_selection (claim C4)

The source takes self._area_selection_lock, rejects the call with the
distinct "already in progress" error if the flag is set, otherwise
sets the flag, runs the session in a try whose finally clears the
flag again.  The lock makes the check-and-set and the clear atomic,
so the guard is faithfully a transition function on the flag. -/

/-- Outcome of one manager-level capture call: returned path, error
callback events (capture_type, message) and completion callback
events (capture_type, path). -/
structure CaptureOutcome where
  result : Option String
  error_events : List (String × String)
  complete_events : List (String × String)
deriving DecidableEq, Repr

/-- What the guard decides at entry. -/
inductive GuardEntry where
  | rejected
  | entered
deriving DecidableEq, Repr

/-- The with-lock entry block of capture_area_selection: reject when
the flag is set (flag untouched), else set the flag. -/
def area_guard_enter (active : Bool) : GuardEntry × Bool :=
  if active then (.rejected, active) else (.entered, true)

/-- The finally block: clear the flag whatever happened. -/
def area_guard_exit (_ : Bool) : Bool := false

/-- The distinct already-in-progress message (source:
"Une sélection de zone est déjà en cours", accents dropped). -/
def already_in_progress_msg : String :=
  "Une selection de zone est deja en cours"

/-- How the body of capture_area_selection (between entry and the
finally) can end. -/
inductive AreaBody where
  | selected (path : String)
  | cancelled
  | raised (msg : String)
deriving DecidableEq, Repr

/-- Embeds one whole capture_area_selection call as a transition on
the guard flag: entry guard, then the body (selection plus save,
abstracted to its outcome), then the finally clearing the flag.  The
rejected path fires the distinct error and returns None before the
try block, leaving the in-flight session's flag set. -/
def capture_area_selection_step (active : Bool) (body : AreaBody) :
    CaptureOutcome × Bool :=
  match area_guard_enter active with
  | (.rejected, s) => (⟨none, [("area", already_in_progress_msg)], []⟩, s)
  | (.entered, _) =>
      match body with
      | .selected p => (⟨some p, [], [("area", p)]⟩, area_guard_exit true)
      | .cancelled => (⟨none, [], []⟩, area_guard_exit true)
      | .raised m => (⟨none, [("area", m)], []⟩, area_guard_exit true)

/-! ## Auto filename generation (ScreenshotManager._generate_filename)

The collision loop keeps folder and extension fixed and only rewrites
the stem: full_path.stem of the current candidate gets "_counter"
appended, with counter starting at 1 and incremented every round.  We
represent a path by its stem; `existing` lists the stems (in the same
folder, with the same extension) whose files exist on disk.  The
source loop is unbounded; the embedding carries fuel large enough to
be proven sufficient (each round lengthens the stem, so it escapes
any finite set of existing stems). -/

/-- One collision round: f-string name_without_ext + underscore + counter. -/
def collide_next (stem : String) (counter : Nat) : String :=
  stem ++ "_" ++ toString counter

/-- The while full_path.exists() loop of _generate_filename, with fuel. -/
def collide_loop : Nat → List String → String → Nat → Option String
  | 0, _, _, _ => none
  | fuel + 1, existing, stem, counter =>
      if stem ∈ existing then
        collide_loop fuel existing (collide_next stem counter) (counter + 1)
      else some stem

/-- Longest stem length among the existing files. -/
def maxStemLen (existing : List String) : Nat :=
  existing.foldr (fun s m => max s.length m) 0

/-- Embeds the collision-avoidance part of _generate_filename: starting
from the composed stem (prefix plus timestamp), loop until the path
does not exist.  Fuel maxStemLen + 2 is enough (proved below). -/
def generate_filename (existing : List String) (stem : String) : Option String :=
  collide_loop (maxStemLen existing + 2) existing stem 1

/-- Stated from the words of the spec, for comparison with the source
loop only (claim C5): try the base name, then base_1, base_2, base_3,
... each suffix appended to the BASE name, until one does not exist. -/
def claimed_suffix_filename (existing : List String) (base : String) : Option String :=
  if base ∈ existing then
    (List.range (maxStemLen existing + 2)).findSome?
      (fun k =>
        let cand := base ++ "_" ++ toString (k + 1)
        if cand ∈ existing then none else some cand)
  else some base

/-! ## Window-capture strategy chain (claim C2)

capture_active_window tries, in order, _capture_window_printwindow,
_capture_window_bitblt_enhanced, _capture_window_region_corrected,
each of which is a try block returning an image or None with a bare
except that logs and returns None; then pyautogui.screenshot() as
last resort.  Each strategy body (win32 calls, validity check) is an
oracle of type Except Unit (Option Image): .ok (some img) a usable
image, .ok none the body finished without a usable image, .error the
body raised. -/

/-- Oracle inputs of one capture_active_window call. -/
structure ChainEnv where
  windows_available : Bool
  printwindow_body : Except Unit (Option Image)
  bitblt_body : Except Unit (Option Image)
  region_body : Except Unit (Option Image)
  fullscreen_grab : Except Unit Image

/-- The try/except wrapper every strategy shares: a raising body is
swallowed into None. -/
def swallow (body : Except Unit (Option Image)) : Option Image :=
  match body with
  | .error _ => none
  | .ok r => r

/-- Embeds _capture_window_printwindow: Windows only; the body is
wrapped by the bare except returning None. -/
def capture_window_printwindow (env : ChainEnv) : Option Image :=
  if env.windows_available then swallow env.printwindow_body else none

/-- Embeds _capture_window_bitblt_enhanced, same wrapper shape. -/
def capture_window_bitblt_enhanced (env : ChainEnv) : Option Image :=
  if env.windows_available then swallow env.bitblt_body else none

/-- Embeds _capture_window_region_corrected: available on every
platform, same wrapper shape. -/
def capture_window_region_corrected (env : ChainEnv) : Option Image :=
  swallow env.region_body

/-- Embeds the strategy sequence inside capture_active_window: method
2 runs only when method 1 produced None, method 3 only when 1 and 2
did, and when all three produced None the full-screen
pyautogui.screenshot() is used as-is; that last grab is NOT wrapped
by a strategy-local except, so its failure propagates to the outer
handler of capture_active_window (the error the caller sees). -/
def window_capture_chain (env : ChainEnv) : Except Unit Image :=
  let s1 := capture_window_printwindow env
  let s2 := match s1 with
    | some i => some i
    | none => capture_window_bitblt_enhanced env
  let s3 := match s2 with
    | some i => some i
    | none => capture_window_region_corrected env
  match s3 with
  | some i => .ok i
  | none => env.fullscreen_grab

/-! ## capture_active_window and capture_app_direct (claims C2, C10) -/

/-- Oracle inputs of the ScreenshotManager operations: the detector
result, the settings folders, the strategy-chain oracles and the
save step (_process_and_save_image), which may itself raise. -/
structure ManagerEnv where
  detect : Option AppInfo
  app_folder : String → Option String
  chain : ChainEnv
  save : Image → Option String → Option String → Except Unit String

/-- Message raised by capture_active_window when no app is detected
(source: "Impossible de détecter l'application active", ASCII). -/
def no_active_app_msg : String :=
  "Impossible de detecter l application active"

/-- Embeds ScreenshotManager.capture_active_window: detect the app
(raising into the outer except when None), resolve the folder
override from the app name when none was given, run the strategy
chain, save, and fire exactly one completion or one error callback. -/
def capture_active_window (env : ManagerEnv)
    (save_path folder_override : Option String) : CaptureOutcome :=
  match env.detect with
  | none => ⟨none, [("window", no_active_app_msg)], []⟩
  | some app =>
      let folder := match folder_override with
        | some f => some f
        | none => env.app_folder app.name
      match window_capture_chain env.chain with
      | .error _ => ⟨none, [("window", "screenshot failed")], []⟩
      | .ok img =>
          match env.save img save_path folder with
          | .error _ => ⟨none, [("window", "save failed")], []⟩
          | .ok path => ⟨some path, [], [("window", path)]⟩

/-- Message raised by capture_app_direct when the requested app is
not the active one (source f-string "Application ... non active"). -/
def app_not_active_msg (app_name : String) : String :=
  "Application " ++ app_name ++ " non active"

/-- Embeds ScreenshotManager.capture_app_direct: compare the detected
name against the requested one with str.lower on both sides; on a
match delegate to capture_active_window with the folder configured
for the app, otherwise raise into the except that fires the single
"direct" error callback and returns None. -/
def capture_app_direct (env : ManagerEnv) (app_name : String)
    (save_path : Option String) : CaptureOutcome :=
  match env.detect with
  | none => ⟨none, [("direct", app_not_active_msg app_name)], []⟩
  | some app =>
      if pyLower app.name = pyLower app_name then
        capture_active_window env save_path (env.app_folder app_name)
      else ⟨none, [("direct", app_not_active_msg app_name)], []⟩

/-! ## Theorems -/

/-- C3 counterexample: a borderless/popup window that does not cover
its monitor.  The spec claims the style criterion alone classifies it
fullscreen; the source additionally requires the size match, so it
disagrees with the claimed disjunction at this input. -/
theorem fullscreen_style_alone_disagrees :
    is_window_fullscreen (.ok (⟨0, 0, 1920, 1080⟩, ⟨true, true⟩)) 500 500 100 100 = false ∧
    fullscreen_claimed ⟨0, 0, 1920, 1080⟩ ⟨true, true⟩ 500 500 100 100 = true ∧
    is_window_fullscreen (.ok (⟨0, 0, 1920, 1080⟩, ⟨true, true⟩)) 500 500 100 100 ≠
      fullscreen_claimed ⟨0, 0, 1920, 1080⟩ ⟨true, true⟩ 500 500 100 100 := by
  refine ⟨by decide, by decide, by decide⟩

/-- C3 amended: the source classification is size-match AND
(top-left alignment OR borderless/popup style): the style criterion
substitutes only for the alignment, never for the size match, so a
borderless/popup window is fullscreen only when it also covers the
nearest monitor within the 10px tolerance. -/
theorem is_window_fullscreen_characterization
    (m : MonitorRect) (style : WinStyle) (x y width height : Int) :
    is_window_fullscreen (.ok (m, style)) x y width height = true ↔
      ((m.right - m.left - 10 ≤ width ∧ m.bottom - m.top - 10 ≤ height) ∧
        ((|x - m.left| ≤ 10 ∧ |y - m.top| ≤ 10) ∨
          (style.ws_popup = true ∨ style.ws_border = false))) := by
  simp only [is_window_fullscreen, Bool.and_eq_true, Bool.or_eq_true,
    decide_eq_true_eq, Bool.not_eq_true']

/-- Helper: one _update_history call preserves the bound and the
no-consecutive-duplicates property. -/
theorem update_history_preserves (h : List AppInfo) (a : AppInfo)
    (hinv : historyInv h) : historyInv (update_history h a) := by
  obtain ⟨hlen, hchain⟩ := hinv
  unfold update_history
  by_cases hd : history_dup h a = true
  · simp only [hd, if_true]
    exact ⟨hlen, hchain⟩
  · simp only [hd, if_false, Bool.false_eq_true]
    have hlast : ∀ last ∈ h.getLast?, last.name ≠ a.name := by
      intro last hl
      unfold history_dup at hd
      rw [Option.mem_def] at hl
      rw [hl] at hd
      simpa using hd
    have hchain2 : ((h ++ [a]).map AppInfo.name).Chain' (· ≠ ·) := by
      rw [List.map_append]
      rw [List.chain'_append]
      refine ⟨hchain, List.chain'_singleton _, ?_⟩
      intro x hx y hy
      rw [List.getLast?_map] at hx
      simp only [List.map_cons, List.map_nil, List.head?_cons,
        Option.mem_def, Option.some.injEq] at hy
      subst hy
      rw [Option.mem_def, Option.map_eq_some'] at hx
      obtain ⟨last, hl, rfl⟩ := hx
      exact hlast last hl
    by_cases hb : 50 < (h ++ [a]).length
    · simp only [hb, if_true]
      constructor
      · rw [List.length_drop]
        omega
      · rw [List.map_drop]
        exact hchain2.drop _
    · simp only [hb, if_false]
      exact ⟨by omega, hchain2⟩

/-- Helper: the invariant holds along any fold of updates from any
invariant-satisfying start. -/
theorem history_foldl_preserves (ops : List AppInfo) :
    ∀ h : List AppInfo, historyInv h → historyInv (ops.foldl update_history h) := by
  induction ops with
  | nil => intro h hi; exact hi
  | cons a t ih =>
      intro h hi
      exact ih _ (update_history_preserves h a hi)

/-- C6: after every history update the app history holds at most 50
entries with no two consecutive entries sharing a process name, and
an append from a full history of 50 entries trims to the most recent
25 entries of the appended list. -/
theorem history_bounded_and_deduped :
    (∀ ops : List AppInfo,
      (ops.foldl update_history []).length ≤ 50 ∧
        ((ops.foldl update_history []).map AppInfo.name).Chain' (· ≠ ·)) ∧
    (∀ (h : List AppInfo) (a : AppInfo), h.length = 50 →
      history_dup h a = false →
      update_history h a = (h ++ [a]).drop 26 ∧
        (update_history h a).length = 25) := by
  constructor
  · intro ops
    exact history_foldl_preserves ops [] ⟨by simp, by simp⟩
  · intro h a hlen hdup
    have hl2 : (h ++ [a]).length = 51 := by
      rw [List.length_append]
      simp [hlen]
    have heq : update_history h a = (h ++ [a]).drop 26 := by
      unfold update_history
      simp only [hdup, Bool.false_eq_true, if_false]
      rw [if_pos (by omega)]
      rw [hl2]
    refine ⟨heq, ?_⟩
    rw [heq, List.length_drop, hl2]

/-- Sample AppInfo value for concrete evaluations. -/
def mkInfo (s : String) : AppInfo :=
  ⟨s, 0, "", "", false, (0, 0, 0, 0), false, false, 0, ""⟩

/-- C6 witness: both conjuncts at concrete inputs (a 3-update fold,
and a trim from a full 50-entry history). -/
theorem history_bounded_and_deduped_witness :
    (([mkInfo "a", mkInfo "b", mkInfo "a"].foldl update_history []).length ≤ 50 ∧
      (([mkInfo "a", mkInfo "b", mkInfo "a"].foldl update_history []).map
        AppInfo.name).Chain' (· ≠ ·)) ∧
    (update_history (List.replicate 50 (mkInfo "a")) (mkInfo "b") =
        (List.replicate 50 (mkInfo "a") ++ [mkInfo "b"]).drop 26 ∧
      (update_history (List.replicate 50 (mkInfo "a")) (mkInfo "b")).length = 25) :=
  ⟨history_bounded_and_deduped.1 _,
   history_bounded_and_deduped.2 _ _ (by decide) (by decide)⟩

/-- Helper: when a call actually performed a detection and the
platform query succeeded, the call returned the enriched value,
cached it with the call time and appended it to the history. -/
theorem get_current_app_detected (st : DetectorState) (uc : Bool) (t : ℚ)
    (raw : AppInfo)
    (hdet : (get_current_app st uc t (.ok (some raw))).performed_detection = true) :
    get_current_app st uc t (.ok (some raw)) =
      ⟨some (enrich_app_info raw),
       ⟨some (enrich_app_info raw), t,
        update_history st.app_history (enrich_app_info raw)⟩, true⟩ := by
  unfold get_current_app at hdet ⊢
  by_cases hc : (uc && st.cached_app.isSome &&
      decide (t - st.last_detection_time < cache_duration)) = true
  · rw [if_pos hc] at hdet
    exact absurd hdet (by simp)
  · rw [if_neg hc]

/-- Helper: a cache hit returns the cached value and changes nothing. -/
theorem get_current_app_cache_hit (st : DetectorState) (t : ℚ)
    (q : Except Unit (Option AppInfo))
    (hsome : st.cached_app.isSome = true)
    (ht : t - st.last_detection_time < cache_duration) :
    get_current_app st true t q = ⟨st.cached_app, st, false⟩ := by
  unfold get_current_app
  rw [if_pos (by simp [hsome, ht])]

/-- Helper: a performed detection that fails (raise, or no foreground
window) returns None and leaves the whole state untouched. -/
theorem get_current_app_failed (st : DetectorState) (uc : Bool) (t : ℚ)
    (q : Except Unit (Option AppInfo))
    (hq : q = .error () ∨ q = .ok none)
    (hdet : (get_current_app st uc t q).performed_detection = true) :
    get_current_app st uc t q = ⟨none, st, true⟩ := by
  unfold get_current_app at hdet ⊢
  by_cases hc : (uc && st.cached_app.isSome &&
      decide (t - st.last_detection_time < cache_duration)) = true
  · rw [if_pos hc] at hdet
    exact absurd hdet (by simp)
  · rw [if_neg hc]
    rcases hq with rfl | rfl <;> rfl

/-- C7: two get_current_app calls with use_cache=True made less than
the 1-second TTL apart, the first of which performed and cached a
detection, agree: the second returns the first's cached value
unchanged, performs no new OS detection and leaves the detector
state exactly as the first call left it. -/
theorem cache_hit_within_ttl (st0 : DetectorState) (t1 t2 : ℚ) (raw : AppInfo)
    (q2 : Except Unit (Option AppInfo))
    (hdet : (get_current_app st0 true t1 (.ok (some raw))).performed_detection = true)
    (ht : t2 - t1 < 1) :
    (get_current_app (get_current_app st0 true t1 (.ok (some raw))).state
        true t2 q2).result
      = (get_current_app st0 true t1 (.ok (some raw))).result ∧
    (get_current_app (get_current_app st0 true t1 (.ok (some raw))).state
        true t2 q2).state
      = (get_current_app st0 true t1 (.ok (some raw))).state ∧
    (get_current_app (get_current_app st0 true t1 (.ok (some raw))).state
        true t2 q2).performed_detection = false := by
  rw [get_current_app_detected st0 true t1 raw hdet]
  rw [get_current_app_cache_hit _ t2 q2 (by simp) (by simpa [cache_duration] using ht)]
  exact ⟨rfl, rfl, rfl⟩

/-- C7 witness: first call at time 0 detects and caches, second call
at time 1/2 returns the same result without a new detection. -/
theorem cache_hit_within_ttl_witness :
    (get_current_app
        (get_current_app ⟨none, 0, []⟩ true 0 (.ok (some (mkInfo "a")))).state
        true (1/2) (.error ())).result
      = (get_current_app ⟨none, 0, []⟩ true 0 (.ok (some (mkInfo "a")))).result ∧
    (get_current_app
        (get_current_app ⟨none, 0, []⟩ true 0 (.ok (some (mkInfo "a")))).state
        true (1/2) (.error ())).state
      = (get_current_app ⟨none, 0, []⟩ true 0 (.ok (some (mkInfo "a")))).state ∧
    (get_current_app
        (get_current_app ⟨none, 0, []⟩ true 0 (.ok (some (mkInfo "a")))).state
        true (1/2) (.error ())).performed_detection = false :=
  cache_hit_within_ttl ⟨none, 0, []⟩ 0 (1/2) (mkInfo "a") (.error ())
    (by decide) (by norm_num)

/-- C9: a failed detection attempt (platform query raising, or no
foreground window) returns None and leaves cache, timestamp and
history exactly as they were; in particular a later cached call
within the TTL of an earlier successful detection still returns that
earlier cached value. -/
theorem failed_detection_preserves_state :
    (∀ (st : DetectorState) (uc : Bool) (t : ℚ)
        (q : Except Unit (Option AppInfo)),
      (q = .error () ∨ q = .ok none) →
      (get_current_app st uc t q).performed_detection = true →
      (get_current_app st uc t q).result = none ∧
        (get_current_app st uc t q).state = st) ∧
    (∀ (st0 : DetectorState) (t1 t2 t3 : ℚ) (raw : AppInfo)
        (qf q3 : Except Unit (Option AppInfo)),
      (get_current_app st0 true t1 (.ok (some raw))).performed_detection = true →
      (qf = .error () ∨ qf = .ok none) →
      t3 - t1 < 1 →
      (get_current_app
          (get_current_app
            (get_current_app st0 true t1 (.ok (some raw))).state
            false t2 qf).state
          true t3 q3).result = some (enrich_app_info raw)) := by
  constructor
  · intro st uc t q hq hdet
    rw [get_current_app_failed st uc t q hq hdet]
    exact ⟨rfl, rfl⟩
  · intro st0 t1 t2 t3 raw qf q3 hdet hqf ht
    rw [get_current_app_detected st0 true t1 raw hdet]
    have hperf2 : (get_current_app
        ⟨some (enrich_app_info raw), t1,
          update_history st0.app_history (enrich_app_info raw)⟩
        false t2 qf).performed_detection = true := by
      unfold get_current_app
      rw [if_neg (by simp)]
      rcases hqf with rfl | rfl <;> rfl
    rw [get_current_app_failed _ false t2 qf hqf hperf2]
    rw [get_current_app_cache_hit _ t3 q3 (by simp)
      (by simpa [cache_duration] using ht)]

/-- C9 witness: both conjuncts at concrete inputs (a raising query on
an empty detector; then detect at 0, fail forced at 1/4, cached read
at 1/2). -/
theorem failed_detection_preserves_state_witness :
    ((get_current_app ⟨none, 0, []⟩ true 0 (.error ())).result = none ∧
      (get_current_app ⟨none, 0, []⟩ true 0 (.error ())).state = ⟨none, 0, []⟩) ∧
    (get_current_app
        (get_current_app
          (get_current_app ⟨none, 0, []⟩ true 0 (.ok (some (mkInfo "a")))).state
          false (1/4) (.ok none)).state
        true (1/2) (.error ())).result = some (enrich_app_info (mkInfo "a")) :=
  ⟨failed_detection_preserves_state.1 ⟨none, 0, []⟩ true 0 (.error ())
      (Or.inl rfl) (by decide),
   failed_detection_preserves_state.2 ⟨none, 0, []⟩ 0 (1/4) (1/2) (mkInfo "a")
      (.ok none) (.error ()) (by decide) (Or.inr rfl) (by norm_num)⟩

/-- Helper: a click-drag-release at the same end point with both
sides strictly over 10px stores the normalized rectangle as the
selection and leaves it as the drawn rectangle. -/
theorem run_selection_commit (sx sy ex ey : Int)
    (hw : 10 < max sx ex - min sx ex) (hh : 10 < max sy ey - min sy ey) :
    run_selection [.click sx sy, .drag ex ey, .release ex ey] =
      ⟨sx, sy, false,
       some (min sx ex, min sy ey, max sx ex - min sx ex, max sy ey - min sy ey),
       false,
       some (min sx ex, min sy ey, max sx ex - min sx ex, max sy ey - min sy ey),
       false⟩ := by
  have h5 : (decide (5 < max sx ex - min sx ex) &&
      decide (5 < max sy ey - min sy ey)) = true := by
    simp only [Bool.and_eq_true, decide_eq_true_eq]
    omega
  have h10 : (decide (10 < max sx ex - min sx ex) &&
      decide (10 < max sy ey - min sy ey)) = true := by
    simp only [Bool.and_eq_true, decide_eq_true_eq]
    omega
  simp only [run_selection, List.foldl, sel_step, initSelState, on_click, on_drag,
    on_release, Bool.not_true, Bool.not_false, Bool.false_eq_true, if_false,
    if_true, reduceIte, h5, h10]

/-- Helper: a click-drag-release whose normalized rectangle is not
strictly over 10px in both axes is discarded: no selection is
stored, the canvas is cleared and the session keeps running. -/
theorem run_selection_discard (sx sy ex ey : Int)
    (h : ¬(10 < max sx ex - min sx ex ∧ 10 < max sy ey - min sy ey)) :
    run_selection [.click sx sy, .drag ex ey, .release ex ey] =
      ⟨sx, sy, false, none, false, none, false⟩ := by
  have h10 : (decide (10 < max sx ex - min sx ex) &&
      decide (10 < max sy ey - min sy ey)) ≠ true := by
    intro hcontra
    apply h
    simpa using hcontra
  by_cases h5 : (decide (5 < max sx ex - min sx ex) &&
      decide (5 < max sy ey - min sy ey)) = true
  · simp only [run_selection, List.foldl, sel_step, initSelState, on_click, on_drag,
      on_release, Bool.not_true, Bool.not_false, Bool.false_eq_true, if_false,
      if_true, reduceIte, h5, if_neg h10]
  · simp only [run_selection, List.foldl, sel_step, initSelState, on_click, on_drag,
      on_release, Bool.not_true, Bool.not_false, Bool.false_eq_true, if_false,
      if_true, reduceIte, if_neg h5, if_neg h10]

/-- C8 counterexample: an exactly 10 by 10 drag.  The source commit
gate is strictly greater than 10 in both axes (width > 10 and
height > 10), so the drag is discarded, and the following Enter (or
Space) does not end the session and returns nothing, contradicting
the claim that a drag of at least 10x10 followed by Enter or Space
ends the session with that rectangle. -/
theorem exact_ten_drag_not_committed :
    (run_selection [.click 0 0, .drag 10 10, .release 10 10, .keyReturn]).quit
      = false ∧
    (run_selection [.click 0 0, .drag 10 10, .release 10 10,
      .keyReturn]).selected_area = none ∧
    (run_selection [.click 0 0, .drag 10 10, .release 10 10, .keySpace]).quit
      = false := by
  decide

/-- C8 amended: on pointer-up a drag whose normalized rectangle is
not strictly greater than 10px in both axes is discarded (the session
resumes waiting for a new drag, with no result and no cancellation);
a drag strictly greater than 10px in both axes followed by Enter or
Space ends the session returning a positive-sized rectangle equal to
the last drawn rectangle. -/
theorem selection_commit_requires_over_ten :
    (∀ st : SelState, sel_step st .keySpace = sel_step st .keyReturn) ∧
    (∀ sx sy ex ey : Int,
      10 < max sx ex - min sx ex → 10 < max sy ey - min sy ey →
      (run_selection [.click sx sy, .drag ex ey, .release ex ey]).selected_area
          = some (min sx ex, min sy ey, max sx ex - min sx ex,
                  max sy ey - min sy ey) ∧
      (run_selection [.click sx sy, .drag ex ey, .release ex ey]).drawn_rect
          = (run_selection [.click sx sy, .drag ex ey,
              .release ex ey]).selected_area ∧
      0 < max sx ex - min sx ex ∧ 0 < max sy ey - min sy ey ∧
      (sel_step (run_selection [.click sx sy, .drag ex ey, .release ex ey])
          .keyReturn).quit = true ∧
      (sel_step (run_selection [.click sx sy, .drag ex ey, .release ex ey])
          .keyReturn).selected_area
        = some (min sx ex, min sy ey, max sx ex - min sx ex,
                max sy ey - min sy ey)) ∧
    (∀ sx sy ex ey : Int,
      ¬(10 < max sx ex - min sx ex ∧ 10 < max sy ey - min sy ey) →
      (run_selection [.click sx sy, .drag ex ey, .release ex ey]).selected_area
          = none ∧
      (run_selection [.click sx sy, .drag ex ey, .release ex ey]).selecting
          = false ∧
      (run_selection [.click sx sy, .drag ex ey, .release ex ey]).quit = false ∧
      (sel_step (run_selection [.click sx sy, .drag ex ey, .release ex ey])
          (.click sx sy)).selecting = true) := by
  refine ⟨fun st => rfl, ?_, ?_⟩
  · intro sx sy ex ey hw hh
    rw [run_selection_commit sx sy ex ey hw hh]
    refine ⟨rfl, rfl, by omega, by omega, rfl, rfl⟩
  · intro sx sy ex ey h
    rw [run_selection_discard sx sy ex ey h]
    exact ⟨rfl, rfl, rfl, rfl⟩

/-- C8 witness: an 11 by 11 drag commits and Enter returns it; a 7 by
12 drag is discarded and the session keeps waiting. -/
theorem selection_commit_requires_over_ten_witness :
    ((run_selection [.click 0 0, .drag 11 11, .release 11 11]).selected_area
        = some (min 0 11, min 0 11, max 0 11 - min 0 11, max 0 11 - min 0 11) ∧
      (run_selection [.click 0 0, .drag 11 11, .release 11 11]).drawn_rect
        = (run_selection [.click 0 0, .drag 11 11, .release 11 11]).selected_area ∧
      (0 : Int) < max 0 11 - min 0 11 ∧ (0 : Int) < max 0 11 - min 0 11 ∧
      (sel_step (run_selection [.click 0 0, .drag 11 11, .release 11 11])
          .keyReturn).quit = true ∧
      (sel_step (run_selection [.click 0 0, .drag 11 11, .release 11 11])
          .keyReturn).selected_area
        = some (min 0 11, min 0 11, max 0 11 - min 0 11, max 0 11 - min 0 11)) ∧
    ((run_selection [.click 0 0, .drag 7 12, .release 7 12]).selected_area
        = none ∧
      (run_selection [.click 0 0, .drag 7 12, .release 7 12]).selecting = false ∧
      (run_selection [.click 0 0, .drag 7 12, .release 7 12]).quit = false ∧
      (sel_step (run_selection [.click 0 0, .drag 7 12, .release 7 12])
          (.click 0 0)).selecting = true) :=
  ⟨selection_commit_requires_over_ten.2.1 0 0 11 11 (by decide) (by decide),
   selection_commit_requires_over_ten.2.2 0 0 7 12 (by decide)⟩

/-- Frozen session snapshot for the C1 evaluation: all pixels 0. -/
def frozenC1 : Image := ⟨30, 30, fun _ _ => 0⟩

/-- Live screen at re-grab time for the C1 evaluation: the content
changed after the overlay teardown, all pixels 1. -/
def liveC1 : Image := ⟨30, 30, fun _ _ => 1⟩

/-- The C1 evaluation environment: a session over frozenC1 whose user
drags a 20 by 20 rectangle from the origin and confirms with Enter,
with the screen content having changed to liveC1 by re-grab time. -/
def envC1 : AreaCaptureEnv :=
  ⟨⟨.ok frozenC1, [.click 0 0, .drag 20 20, .release 20 20, .keyReturn]⟩, liveC1⟩

/-- C1: evaluating the source behavior at a concrete failing input.
select_area hands back only the rectangle (the frozen snapshot is
destroyed in _cleanup_selection_interface), and
capture_area_selection then re-grabs the LIVE screen at that
rectangle, so when the screen changes between the freeze and the
re-grab the saved image differs from the crop of the frozen snapshot
the claim requires. -/
theorem area_capture_regrabs_live_screen :
    select_area envC1.sel = some (0, 0, 20, 20) ∧
    capture_area_selection_image envC1 = some (cropImage liveC1 0 0 20 20) ∧
    (cropImage liveC1 0 0 20 20).pixel 0 0 = 1 ∧
    (cropImage frozenC1 0 0 20 20).pixel 0 0 = 0 :=
  ⟨rfl, rfl, rfl, rfl⟩

/-- C4: the mutex-protected guard of capture_area_selection.  A call
arriving while the flag is set is rejected with the distinct
already-in-progress error, returns no result, fires no completion,
runs no session body and leaves the in-flight flag set; any call
that actually runs clears the flag on every exit path (success,
cancellation, exception), so a later call can enter again. -/
theorem area_selection_guard_exclusive :
    (∀ b : AreaBody, capture_area_selection_step true b =
      (⟨none, [("area", already_in_progress_msg)], []⟩, true)) ∧
    (∀ b : AreaBody, (capture_area_selection_step false b).2 = false) ∧
    (area_guard_enter false = (.entered, true)) ∧
    (∀ s : Bool, area_guard_exit s = false) ∧
    (∀ p, capture_area_selection_step false (.selected p) =
      (⟨some p, [], [("area", p)]⟩, false)) ∧
    (capture_area_selection_step false .cancelled = (⟨none, [], []⟩, false)) ∧
    (∀ m, capture_area_selection_step false (.raised m) =
      (⟨none, [("area", m)], []⟩, false)) :=
  ⟨fun b => rfl, fun b => by cases b <;> rfl, rfl, fun s => rfl,
   fun p => rfl, rfl, fun m => rfl⟩

/-- C2: each of the three window strategies swallows a raising body
into no-result; the chain consults them in the fixed order
PrintWindow, BitBlt, region-grab, each only when the previous
yielded nothing; with all three empty the full-screen grab is used
as-is, so whenever that grab succeeds the chain yields an image; and
the chain errors only when every strategy and the full-screen grab
itself failed. -/
theorem window_chain_order_and_fallback :
    (∀ (env : ChainEnv) (u : Unit), env.printwindow_body = .error u →
      capture_window_printwindow env = none) ∧
    (∀ (env : ChainEnv) (u : Unit), env.bitblt_body = .error u →
      capture_window_bitblt_enhanced env = none) ∧
    (∀ (env : ChainEnv) (u : Unit), env.region_body = .error u →
      capture_window_region_corrected env = none) ∧
    (∀ (env : ChainEnv) (i : Image), capture_window_printwindow env = some i →
      window_capture_chain env = .ok i) ∧
    (∀ (env : ChainEnv) (i : Image), capture_window_printwindow env = none →
      capture_window_bitblt_enhanced env = some i →
      window_capture_chain env = .ok i) ∧
    (∀ (env : ChainEnv) (i : Image), capture_window_printwindow env = none →
      capture_window_bitblt_enhanced env = none →
      capture_window_region_corrected env = some i →
      window_capture_chain env = .ok i) ∧
    (∀ env : ChainEnv, capture_window_printwindow env = none →
      capture_window_bitblt_enhanced env = none →
      capture_window_region_corrected env = none →
      window_capture_chain env = env.fullscreen_grab) ∧
    (∀ (env : ChainEnv) (img : Image), env.fullscreen_grab = .ok img →
      ∃ i : Image, window_capture_chain env = .ok i) ∧
    (∀ (env : ChainEnv) (u : Unit), window_capture_chain env = .error u →
      capture_window_printwindow env = none ∧
      capture_window_bitblt_enhanced env = none ∧
      capture_window_region_corrected env = none ∧
      env.fullscreen_grab = .error u) := by
  refine ⟨?_, ?_, ?_, ?_, ?_, ?_, ?_, ?_, ?_⟩
  · intro env u hb
    unfold capture_window_printwindow swallow
    rw [hb]
    cases env.windows_available <;> rfl
  · intro env u hb
    unfold capture_window_bitblt_enhanced swallow
    rw [hb]
    cases env.windows_available <;> rfl
  · intro env u hb
    unfold capture_window_region_corrected swallow
    rw [hb]
  · intro env i h1
    unfold window_capture_chain
    rw [h1]
  · intro env i h1 h2
    unfold window_capture_chain
    rw [h1, h2]
  · intro env i h1 h2 h3
    unfold window_capture_chain
    rw [h1, h2, h3]
  · intro env h1 h2 h3
    unfold window_capture_chain
    rw [h1, h2, h3]
  · intro env img hf
    by_cases h1 : ∃ i, capture_window_printwindow env = some i
    · obtain ⟨i, hi⟩ := h1
      exact ⟨i, by unfold window_capture_chain; rw [hi]⟩
    · have h1n : capture_window_printwindow env = none :=
        Option.eq_none_iff_forall_not_mem.mpr
          (fun i hi => h1 ⟨i, hi⟩)
      by_cases h2 : ∃ i, capture_window_bitblt_enhanced env = some i
      · obtain ⟨i, hi⟩ := h2
        exact ⟨i, by unfold window_capture_chain; rw [h1n, hi]⟩
      · have h2n : capture_window_bitblt_enhanced env = none :=
          Option.eq_none_iff_forall_not_mem.mpr
            (fun i hi => h2 ⟨i, hi⟩)
        by_cases h3 : ∃ i, capture_window_region_corrected env = some i
        · obtain ⟨i, hi⟩ := h3
          exact ⟨i, by unfold window_capture_chain; rw [h1n, h2n, hi]⟩
        · have h3n : capture_window_region_corrected env = none :=
            Option.eq_none_iff_forall_not_mem.mpr
              (fun i hi => h3 ⟨i, hi⟩)
          exact ⟨img, by unfold window_capture_chain; rw [h1n, h2n, h3n, hf]⟩
  · intro env u herr
    unfold window_capture_chain at herr
    rcases h1 : capture_window_printwindow env with _ | i
    · rcases h2 : capture_window_bitblt_enhanced env with _ | i
      · rcases h3 : capture_window_region_corrected env with _ | i
        · rw [h1, h2, h3] at herr
          exact ⟨rfl, rfl, rfl, herr⟩
        · rw [h1, h2, h3] at herr
          exact absurd herr (by simp)
      · rw [h1, h2] at herr
        exact absurd herr (by simp)
    · rw [h1] at herr
      exact absurd herr (by simp)

/-- Sample one-pixel image for concrete chain evaluations. -/
def img0 : Image := ⟨1, 1, fun _ _ => 0⟩

/-- Chain environment where every strategy body raises and the
full-screen grab succeeds. -/
def envAllRaise : ChainEnv := ⟨true, .error (), .error (), .error (), .ok img0⟩

/-- Chain environment where PrintWindow yields an image. -/
def envPw : ChainEnv := ⟨true, .ok (some img0), .error (), .error (), .error ()⟩

/-- Chain environment where only BitBlt yields an image. -/
def envBb : ChainEnv := ⟨true, .ok none, .ok (some img0), .error (), .error ()⟩

/-- Chain environment where only the region grab yields an image. -/
def envRg : ChainEnv := ⟨true, .ok none, .ok none, .ok (some img0), .error ()⟩

/-- Chain environment where everything fails, the full-screen grab
included. -/
def envAllFail : ChainEnv := ⟨true, .ok none, .ok none, .ok none, .error ()⟩

/-- C2 witness: all conjuncts of the chain theorem evaluated on
concrete environments. -/
theorem window_chain_order_and_fallback_witness :
    capture_window_printwindow envAllRaise = none ∧
    capture_window_bitblt_enhanced envAllRaise = none ∧
    capture_window_region_corrected envAllRaise = none ∧
    window_capture_chain envPw = .ok img0 ∧
    window_capture_chain envBb = .ok img0 ∧
    window_capture_chain envRg = .ok img0 ∧
    window_capture_chain envAllRaise = envAllRaise.fullscreen_grab ∧
    (∃ i : Image, window_capture_chain envAllRaise = .ok i) ∧
    (capture_window_printwindow envAllFail = none ∧
      capture_window_bitblt_enhanced envAllFail = none ∧
      capture_window_region_corrected envAllFail = none ∧
      envAllFail.fullscreen_grab = .error ()) :=
  ⟨window_chain_order_and_fallback.1 envAllRaise () rfl,
   window_chain_order_and_fallback.2.1 envAllRaise () rfl,
   window_chain_order_and_fallback.2.2.1 envAllRaise () rfl,
   window_chain_order_and_fallback.2.2.2.1 envPw img0 rfl,
   window_chain_order_and_fallback.2.2.2.2.1 envBb img0 rfl rfl,
   window_chain_order_and_fallback.2.2.2.2.2.1 envRg img0 rfl rfl rfl,
   window_chain_order_and_fallback.2.2.2.2.2.2.1 envAllRaise rfl rfl rfl,
   window_chain_order_and_fallback.2.2.2.2.2.2.2.1 envAllRaise img0 rfl,
   window_chain_order_and_fallback.2.2.2.2.2.2.2.2 envAllFail () rfl⟩

/-- C10: capture_app_direct compares the requested name to the
detected foreground process name with str.lower on both sides; on a
case-insensitive match it delegates to capture_active_window with
the folder configured for the requested app; when no app is detected
or the lowered names differ it returns None having fired exactly the
one "direct" error callback. -/
theorem app_direct_case_insensitive :
    (∀ (env : ManagerEnv) (app_name : String) (sp : Option String),
      env.detect = none →
      capture_app_direct env app_name sp =
        ⟨none, [("direct", app_not_active_msg app_name)], []⟩) ∧
    (∀ (env : ManagerEnv) (app_name : String) (sp : Option String)
        (app : AppInfo),
      env.detect = some app → pyLower app.name = pyLower app_name →
      capture_app_direct env app_name sp =
        capture_active_window env sp (env.app_folder app_name)) ∧
    (∀ (env : ManagerEnv) (app_name : String) (sp : Option String)
        (app : AppInfo),
      env.detect = some app → pyLower app.name ≠ pyLower app_name →
      capture_app_direct env app_name sp =
        ⟨none, [("direct", app_not_active_msg app_name)], []⟩) := by
  refine ⟨?_, ?_, ?_⟩
  · intro env app_name sp hd
    unfold capture_app_direct
    rw [hd]
  · intro env app_name sp app hd heq
    unfold capture_app_direct
    rw [hd]
    simp only [heq, if_true, if_pos]
  · intro env app_name sp app hd hne
    unfold capture_app_direct
    rw [hd]
    simp only [if_neg hne]

/-- Manager environment for concrete C10 evaluations: the foreground
app is Chrome.EXE and every oracle succeeds. -/
def envDirect : ManagerEnv :=
  ⟨some (mkInfo "Chrome.EXE"), fun _ => some "folder",
   ⟨true, .ok (some img0), .ok none, .ok none, .ok img0⟩,
   fun _ _ _ => .ok "saved.png"⟩

/-- C10 witness: matching request "chrome.exe" delegates (and the
delegation succeeds end to end); non-matching request "firefox"
yields exactly one "direct" error; a detector returning nothing
yields exactly one "direct" error. -/
theorem app_direct_case_insensitive_witness :
    capture_app_direct envDirect "chrome.exe" none =
      capture_active_window envDirect none (envDirect.app_folder "chrome.exe") ∧
    capture_app_direct envDirect "firefox" none =
      ⟨none, [("direct", app_not_active_msg "firefox")], []⟩ ∧
    capture_app_direct
        ⟨none, envDirect.app_folder, envDirect.chain, envDirect.save⟩
        "chrome.exe" none =
      ⟨none, [("direct", app_not_active_msg "chrome.exe")], []⟩ :=
  ⟨app_direct_case_insensitive.2.1 envDirect "chrome.exe" none
      (mkInfo "Chrome.EXE") rfl (by decide),
   app_direct_case_insensitive.2.2 envDirect "firefox" none
      (mkInfo "Chrome.EXE") rfl (by decide),
   app_direct_case_insensitive.1
      ⟨none, envDirect.app_folder, envDirect.chain, envDirect.save⟩
      "chrome.exe" none rfl⟩

/-- Helper: whatever the loop returns is a stem that does not exist. -/
theorem collide_loop_not_mem :
    ∀ (fuel : Nat) (existing : List String) (stem : String) (counter : Nat)
      (r : String),
      collide_loop fuel existing stem counter = some r → r ∉ existing := by
  intro fuel
  induction fuel with
  | zero => intro existing stem counter r h; exact absurd h (by simp [collide_loop])
  | succ n ih =>
      intro existing stem counter r h
      unfold collide_loop at h
      by_cases hm : stem ∈ existing
      · rw [if_pos hm] at h
        exact ih existing _ _ r h
      · rw [if_neg hm] at h
        cases h
        exact hm

/-- Helper: every collision round strictly lengthens the stem. -/
theorem collide_next_length (stem : String) (counter : Nat) :
    stem.length + 1 ≤ (collide_next stem counter).length := by
  unfold collide_next
  rw [String.length_append, String.length_append]
  have : 1 ≤ ("_" : String).length := by decide
  omega

/-- Helper: with fuel exceeding every existing stem length relative
to the start stem, the loop terminates with a result. -/
theorem collide_loop_isSome :
    ∀ (fuel : Nat) (existing : List String) (stem : String) (counter : Nat),
      (∀ s ∈ existing, s.length < stem.length + fuel) →
      (collide_loop (fuel + 1) existing stem counter).isSome = true := by
  intro fuel
  induction fuel with
  | zero =>
      intro existing stem counter h
      have hm : stem ∉ existing := by
        intro hmem
        have := h stem hmem
        omega
      unfold collide_loop
      rw [if_neg hm]
      rfl
  | succ n ih =>
      intro existing stem counter h
      unfold collide_loop
      by_cases hm : stem ∈ existing
      · rw [if_pos hm]
        exact ih existing (collide_next stem counter) (counter + 1)
          (fun s hs => by
            have h1 := h s hs
            have h2 := collide_next_length stem counter
            omega)
      · rw [if_neg hm]
        rfl

/-- Helper: every existing stem is bounded by maxStemLen. -/
theorem length_le_maxStemLen :
    ∀ (existing : List String) (s : String), s ∈ existing →
      s.length ≤ maxStemLen existing := by
  intro existing
  induction existing with
  | nil => intro s hs; cases hs
  | cons a t ih =>
      intro s hs
      unfold maxStemLen at *
      rw [List.mem_cons] at hs
      rcases hs with rfl | hs
      · simp
      · have := ih s hs
        simp only [List.foldr_cons]
        omega

/-- Helper: generate_filename always yields a stem with no existing
file. -/
theorem generate_filename_fresh (existing : List String) (stem : String) :
    ∃ r, generate_filename existing stem = some r ∧ r ∉ existing := by
  have hs : (collide_loop (maxStemLen existing + 1 + 1) existing stem 1).isSome
      = true := by
    apply collide_loop_isSome
    intro s hmem
    have := length_le_maxStemLen existing s hmem
    omega
  rw [Option.isSome_iff_exists] at hs
  obtain ⟨r, hr⟩ := hs
  have hr2 : generate_filename existing stem = some r := by
    unfold generate_filename
    have : maxStemLen existing + 2 = maxStemLen existing + 1 + 1 := by omega
    rw [this]
    exact hr
  exact ⟨r, hr2, collide_loop_not_mem _ existing stem 1 r hr⟩

/-- C5 amended: the collision loop always terminates with a path that
does not yet exist (so the returned path is unique on disk), but the
suffix is appended to the stem of the CURRENT candidate, so the
candidates are base, base_1, base_1_2, base_1_2_3, ...; and two
consecutive auto-named captures (the second seeing the file the
first wrote) yield two distinct paths. -/
theorem generate_filename_unique_and_distinct :
    ∀ (existing : List String) (stem1 stem2 : String),
      ∃ r1 r2,
        generate_filename existing stem1 = some r1 ∧ r1 ∉ existing ∧
        generate_filename (r1 :: existing) stem2 = some r2 ∧
        r2 ∉ (r1 :: existing) ∧ r2 ≠ r1 := by
  intro existing stem1 stem2
  obtain ⟨r1, hr1, hfresh1⟩ := generate_filename_fresh existing stem1
  obtain ⟨r2, hr2, hfresh2⟩ := generate_filename_fresh (r1 :: existing) stem2
  refine ⟨r1, r2, hr1, hfresh1, hr2, hfresh2, ?_⟩
  intro hcontra
  exact hfresh2 (hcontra ▸ List.mem_cons_self r1 existing)

/-- C5 counterexample: with Screenshot and Screenshot_1 existing, the
source loop re-suffixes the current candidate and returns
Screenshot_1_2, not the Screenshot_2 the claimed base-name suffix
sequence produces. -/
theorem generate_filename_compounds_suffix :
    generate_filename ["Screenshot", "Screenshot_1"] "Screenshot"
      = some "Screenshot_1_2" ∧
    claimed_suffix_filename ["Screenshot", "Screenshot_1"] "Screenshot"
      = some "Screenshot_2" ∧
    generate_filename ["Screenshot", "Screenshot_1"] "Screenshot" ≠
      claimed_suffix_filename ["Screenshot", "Screenshot_1"] "Screenshot" := by
  refine ⟨by decide, by decide, by decide⟩
